import Mathlib

/-!
Shallow embedding of the location-sync scheduler (src/ruckit.py), the
reconciliation core of the Geotab/Ruckit integration backend: the identity
mapper over AddInData records, the coordinate comparator, the Ruckit client
wrappers, the per-device reconciliation cycle, and the scheduler start
transition.  Python floats are modelled as rationals, Python dictionary
values as the inductive type PyVal, and HTTP transport as explicit
outcome values passed in as oracles.
-/

namespace Ruckit

/-- A Python value as it can appear in an AddInData details field: None, a
number (int or float, which compare equal in Python exactly when their
numeric values coincide), a string, or a container (list or dict).  For a
container only its truthiness (non-emptiness) and its unhashability are
observable in the code under study, so it is abstracted to that bit. -/
inductive PyVal where
  | pynone : PyVal
  | num : ℚ → PyVal
  | str : String → PyVal
  | obj : Bool → PyVal
deriving DecidableEq

/-- Python truthiness: None is falsy, a number is truthy iff nonzero, a
string iff non-empty, a container iff non-empty. -/
def PyVal.truthy : PyVal → Bool
  | .pynone => false
  | .num q => q != 0
  | .str s => s != ""
  | .obj nonempty => nonempty

/-- Whether the value can be a Python dict key (lists and dicts cannot;
using one as a key raises TypeError, caught by the per-record handler). -/
def PyVal.hashable : PyVal → Bool
  | .obj _ => false
  | _ => true

/-- is_placeholder_value: true exactly for the three template sentinel
strings; any non-string value returns false at the isinstance gate. -/
def is_placeholder_value (value : PyVal) : Bool :=
  match value with
  | .str s => s == "TOKEN" || s == "DriverID" || s == "DeviceID"
  | _ => false

/-- The details object of one AddInData record.  A key absent from the
details dict is read with .get, which yields None, so a missing field is
modelled as PyVal.pynone. -/
structure AddInRecord where
  gt_device : PyVal
  ri_device : PyVal
  ri_token : PyVal
  ri_driver : PyVal
deriving DecidableEq

/-- The value stored in device_mapping for one Geotab device. -/
structure RuckitInfo where
  ri_device : PyVal
  ri_token : PyVal
  ri_driver : PyVal
deriving DecidableEq

/-- State of the mapping-construction loop: the device_mapping dict
(insertion-ordered association list, as a Python dict preserves insertion
order) and the skipped_records counter. -/
structure MapState where
  mapping : List (PyVal × RuckitInfo)
  skipped : ℕ
deriving DecidableEq

/-- Python dict assignment d[k] = v: overwrite in place when an equal key
exists, otherwise append. -/
def dictInsert (m : List (PyVal × RuckitInfo)) (k : PyVal) (v : RuckitInfo) :
    List (PyVal × RuckitInfo) :=
  if m.any (fun kv => kv.1 == k) then
    m.map (fun kv => if kv.1 == k then (k, v) else kv)
  else
    m ++ [(k, v)]

/-- One iteration of the AddInData loop in process_location_sync: drop the
record when any of the four fields is falsy; then skip (counted) when any
of ri_token, ri_driver, ri_device is a placeholder; then insert keyed by
gt_device (an unhashable key raises, is caught, and the record is
dropped uncounted). -/
def mapStep (st : MapState) (rec : AddInRecord) : MapState :=
  if !(rec.gt_device.truthy && rec.ri_device.truthy &&
       rec.ri_token.truthy && rec.ri_driver.truthy) then
    st
  else if is_placeholder_value rec.ri_token || is_placeholder_value rec.ri_driver ||
          is_placeholder_value rec.ri_device then
    { st with skipped := st.skipped + 1 }
  else if !rec.gt_device.hashable then
    st
  else
    let info : RuckitInfo := ⟨rec.ri_device, rec.ri_token, rec.ri_driver⟩
    { st with mapping := dictInsert st.mapping rec.gt_device info }

/-- The device_mapping construction pass over all AddInData records. -/
def buildDeviceMapping (addIns : List AddInRecord) : MapState :=
  addIns.foldl mapStep ⟨[], 0⟩

/-- Default tolerance of coordinates_match. -/
def defaultTolerance : ℚ := 1 / 10000

/-- coordinates_match: false when either pair is absent, else independent
per-axis absolute-difference comparison with inclusive bounds. -/
def coordinates_match (coord1 coord2 : Option (ℚ × ℚ)) (tolerance : ℚ) : Bool :=
  match coord1, coord2 with
  | some c1, some c2 =>
      decide (|c1.1 - c2.1| ≤ tolerance) && decide (|c1.2 - c2.2| ≤ tolerance)
  | _, _ => false

/-- A location object from a Ruckit result: the coordinates field is
either absent or a list of numbers. -/
structure LocationObj where
  coordinates : Option (List ℚ)
deriving DecidableEq

/-- extract_coordinates: the first two elements of the coordinates field
as (longitude, latitude) when the field is present with at least two
elements; otherwise nothing. -/
def extract_coordinates (location_data : LocationObj) : Option (ℚ × ℚ) :=
  match location_data.coordinates with
  | some (lon :: lat :: _) => some (lon, lat)
  | _ => none

/-- One result record in the Ruckit GET response: the date field (absent
keys read via .get with default "") and the location object (absent read
as an empty dict, i.e. a LocationObj with no coordinates field). -/
structure RuckitResult where
  date : Option String
  location : Option LocationObj
deriving DecidableEq

/-- latest_update.get with the empty-dict default for a missing location. -/
def RuckitResult.locationObj (r : RuckitResult) : LocationObj :=
  r.location.getD ⟨none⟩

/-- Parsed body of the GET endpoint: the results key may be absent.  A
falsy (empty) response body behaves the same as one without a results
key, so both take the no-data branch of the cycle. -/
structure RuckitResponse where
  results : Option (List RuckitResult)
deriving DecidableEq

/-- Outcome of one GET transport attempt: an HTTP response with a status
code and its parsed body, or a raised requests exception. -/
inductive HttpOutcome where
  | response : ℕ → RuckitResponse → HttpOutcome
  | requestError : HttpOutcome
deriving DecidableEq

/-- get_ruckit_location_updates: the parsed body on status 200, None on
any other status, None on a transport exception; it never raises. -/
def get_ruckit_location_updates (http : HttpOutcome) : Option RuckitResponse :=
  match http with
  | .response status body => if status == 200 then some body else none
  | .requestError => none

/-- The JSON body posted to the location-updates endpoint.  The constant
fields carry the fixed values the code writes into every payload. -/
structure CorrectionPayload where
  truck : PyVal
  driver : PyVal
  device_id : String
  date : String
  location_type : String := "Point"
  coordinates : List ℚ
  orientation : ℚ := 0
  speed : ℚ := 0
  assignment : PyVal := .pynone
  jobevent : PyVal := .pynone
  provider : PyVal := .pynone
  accuracy : PyVal := .pynone
deriving DecidableEq

/-- Outcome of one POST transport attempt; the body stand-in is the
parsed JSON the caller would receive. -/
inductive PostOutcome where
  | response : ℕ → String → PostOutcome
  | error : PostOutcome
deriving DecidableEq

/-- A DeviceStatusInfo record as the cycle reads it: the nested device id
and the two coordinates, each possibly absent. -/
structure DeviceStatus where
  device_id : Option String
  latitude : Option ℚ
  longitude : Option ℚ
deriving DecidableEq

/-- post_location_update_to_ruckit: absent latitude or longitude returns
None before any network call; otherwise the payload is built from the
Geotab coordinates and posted, the parsed body returned on 200/201 and
None otherwise.  The second component lists the payloads actually sent
over the network (one per requests.post call). -/
def post_location_update_to_ruckit (ri_token ri_device ri_driver : PyVal)
    (device_id : String) (status : DeviceStatus) (now : String)
    (httpPost : CorrectionPayload → PostOutcome) :
    Option String × List CorrectionPayload :=
  match status.latitude, status.longitude with
  | some geotab_lat, some geotab_lon =>
      let payload : CorrectionPayload :=
        { truck := ri_device, driver := ri_driver, device_id := device_id,
          date := now, coordinates := [geotab_lon, geotab_lat] }
      let result : Option String :=
        match httpPost payload with
        | .response status body =>
            if status == 200 || status == 201 then some body else none
        | .error => none
      (result, [payload])
  | _, _ => (none, [])

/-- Python string comparison on the underlying character lists: strict
lexicographic order by code point. -/
def charListLt : List Char → List Char → Bool
  | _, [] => false
  | [], _ :: _ => true
  | a :: as, b :: bs =>
      if a < b then true else if b < a then false else charListLt as bs

/-- Python comparison of two strings, as used by the max key. -/
def strLt (a b : String) : Bool := charListLt a.data b.data

/-- Python max over the results with key x.get of date defaulting to the
empty string: the fold keeps the current element unless a later one has a
strictly larger key, so the first maximal element wins. -/
def dateKey (r : RuckitResult) : String :=
  r.date.getD ""

/-- The fold underlying max starting from the first element. -/
def pyMax1 (r : RuckitResult) (rs : List RuckitResult) : RuckitResult :=
  rs.foldl (fun acc x => if strLt (dateKey acc) (dateKey x) then x else acc) r

/-- The latest-update selection; the empty-results guard of the cycle is
the none case. -/
def pyMaxByDate : List RuckitResult → Option RuckitResult
  | [] => none
  | r :: rs => some (pyMax1 r rs)

/-- Python dict membership and indexing of device_mapping by the string
device_id: a string key equals only an equal string. -/
def lookupMapping (m : List (PyVal × RuckitInfo)) (d : String) : Option RuckitInfo :=
  (m.find? (fun kv => kv.1 == PyVal.str d)).map Prod.snd

/-- Outcome recorded for one device status in a cycle, one constructor
per skip branch of the loop body plus the two terminal comparisons. -/
inductive DeviceOutcome where
  | incompleteData : DeviceOutcome
  | noMapping : DeviceOutcome
  | noRuckitData : DeviceOutcome
  | emptyResults : DeviceOutcome
  | noCoordinates : DeviceOutcome
  | discrepancy : DeviceOutcome
  | inSync : DeviceOutcome
deriving DecidableEq

/-- The body of the per-device loop of process_location_sync: the
completeness guard (truthy device id, latitude and longitude not None),
the mapping lookup, the Ruckit fetch, the results extraction, the
latest-update selection, coordinate extraction, and the tolerance
comparison, posting a correction on mismatch.  Returns the recorded
outcome and the payloads posted for this device. -/
def processDevice (mapping : List (PyVal × RuckitInfo))
    (httpGet : PyVal → PyVal → HttpOutcome)
    (httpPost : CorrectionPayload → PostOutcome)
    (now : String) (status : DeviceStatus) :
    DeviceOutcome × List CorrectionPayload :=
  match status.device_id, status.latitude, status.longitude with
  | some d, some geotab_lat, some geotab_lon =>
    if d == "" then (.incompleteData, [])
    else
      match lookupMapping mapping d with
      | none => (.noMapping, [])
      | some info =>
        match get_ruckit_location_updates (httpGet info.ri_token info.ri_driver) with
        | none => (.noRuckitData, [])
        | some resp =>
          match resp.results with
          | none => (.noRuckitData, [])
          | some results =>
            match pyMaxByDate results with
            | none => (.emptyResults, [])
            | some latest_update =>
              match extract_coordinates latest_update.locationObj with
              | none => (.noCoordinates, [])
              | some ruckit_coords =>
                if coordinates_match (some (geotab_lon, geotab_lat))
                    (some ruckit_coords) defaultTolerance then
                  (.inSync, [])
                else
                  let posted := post_location_update_to_ruckit info.ri_token
                    info.ri_device info.ri_driver d status now httpPost
                  (.discrepancy, posted.2)
  | _, _, _ => (.incompleteData, [])

/-- Result of one reconciliation cycle: the mapping-pass state, the
per-device outcomes in order, the discrepancies_found counter, and every
payload posted during the cycle. -/
structure SyncResult where
  mapState : MapState
  outcomes : List DeviceOutcome
  discrepancies : ℕ
  posted : List CorrectionPayload
deriving DecidableEq

/-- process_location_sync: build device_mapping from the AddInData
records, then run the per-device loop over the device status records;
discrepancies_found increments exactly on the discrepancy branch. -/
def process_location_sync (statuses : List DeviceStatus)
    (addIns : List AddInRecord)
    (httpGet : PyVal → PyVal → HttpOutcome)
    (httpPost : CorrectionPayload → PostOutcome)
    (now : String) : SyncResult :=
  let st := buildDeviceMapping addIns
  let rs := statuses.map (processDevice st.mapping httpGet httpPost now)
  { mapState := st,
    outcomes := rs.map Prod.fst,
    discrepancies := (rs.filter (fun r => r.1 == DeviceOutcome.discrepancy)).length,
    posted := (rs.map Prod.snd).flatten }

/-- Scheduler state: the running flag and whether the loop thread has
been started. -/
structure SchedulerState where
  running : Bool
  threadStarted : Bool
deriving DecidableEq

/-- start: a no-op when already running; otherwise authenticate first and
only on success set the running flag and start the loop thread.  The
parameter is the outcome of the initial authenticate_geotab call. -/
def start (authSucceeds : Bool) (s : SchedulerState) : SchedulerState :=
  if s.running then s
  else if !authSucceeds then s
  else { running := true, threadStarted := true }

/-- Trivial transport oracles used by concrete witnesses. -/
def noGet : PyVal → PyVal → HttpOutcome := fun _ _ => .requestError

/-- Trivial POST oracle used by concrete witnesses. -/
def noPost : CorrectionPayload → PostOutcome := fun _ => .error

/-- C2: get_ruckit_location_updates returns the parsed body exactly when
the transport produced an HTTP response with status 200, and an absent
result for every other status and for a transport failure; being a total
function of the transport outcome, it never raises to its caller. -/
theorem get_ruckit_location_updates_spec (http : HttpOutcome) :
    (∀ body, get_ruckit_location_updates http = some body ↔
      http = HttpOutcome.response 200 body) ∧
    (get_ruckit_location_updates http = none ↔
      ∀ body, http ≠ HttpOutcome.response 200 body) := by
  cases http with
  | response s b =>
      rcases eq_or_ne s 200 with rfl | hs
      · simp [get_ruckit_location_updates]
      · simp [get_ruckit_location_updates, hs]
  | requestError => simp [get_ruckit_location_updates]

/-- C5: coordinates_match is false whenever either pair is absent and
otherwise holds exactly when both absolute per-axis differences are
within the tolerance (inclusive), for every tolerance at least zero. -/
theorem coordinates_match_spec (a b : Option (ℚ × ℚ)) (tol : ℚ) (htol : 0 ≤ tol) :
    ((a = none ∨ b = none) → coordinates_match a b tol = false) ∧
    (∀ ca cb, a = some ca → b = some cb →
      (coordinates_match a b tol = true ↔
        |ca.1 - cb.1| ≤ tol ∧ |ca.2 - cb.2| ≤ tol)) := by
  constructor
  · rintro (rfl | rfl)
    · rfl
    · rcases a with _ | ca <;> rfl
  · rintro ca cb rfl rfl
    simp [coordinates_match]

/-- C5 witness: the specification instantiated at tolerance zero with one
absent argument and at the default tolerance with two present pairs. -/
theorem coordinates_match_spec_witness :
    (((none : Option (ℚ × ℚ)) = none ∨ some ((3 : ℚ), (4 : ℚ)) = none) →
      coordinates_match none (some (3, 4)) 0 = false) ∧
    (∀ ca cb, (none : Option (ℚ × ℚ)) = some ca → some ((3 : ℚ), (4 : ℚ)) = some cb →
      (coordinates_match none (some (3, 4)) 0 = true ↔
        |ca.1 - cb.1| ≤ 0 ∧ |ca.2 - cb.2| ≤ 0)) :=
  coordinates_match_spec none (some (3, 4)) 0 (by norm_num)

/-- C8: coordinates_match is symmetric in its two coordinate arguments
for every tolerance. -/
theorem coordinates_match_symm (a b : Option (ℚ × ℚ)) (tol : ℚ) :
    coordinates_match a b tol = coordinates_match b a tol := by
  rcases a with _ | ca <;> rcases b with _ | cb <;>
    simp [coordinates_match, abs_sub_comm]

/-- C9: is_placeholder_value holds exactly on the three sentinel strings;
in particular every non-string value (None, a number, a container) is not
a placeholder and is never dropped by the placeholder filter. -/
theorem is_placeholder_value_iff (v : PyVal) :
    is_placeholder_value v = true ↔
      v = PyVal.str "TOKEN" ∨ v = PyVal.str "DriverID" ∨ v = PyVal.str "DeviceID" := by
  cases v <;> simp [is_placeholder_value, or_assoc]

/-- C6: calling the correction push with a status missing latitude or
longitude returns an absent result and posts nothing (no network call is
issued: the list of sent payloads is empty). -/
theorem post_location_update_missing_coords (ri_token ri_device ri_driver : PyVal)
    (device_id : String) (status : DeviceStatus) (now : String)
    (httpPost : CorrectionPayload → PostOutcome)
    (h : status.latitude = none ∨ status.longitude = none) :
    post_location_update_to_ruckit ri_token ri_device ri_driver device_id
      status now httpPost = (none, []) := by
  rcases status with ⟨d, lat, lon⟩
  rcases h with h | h
  · cases h
    cases lon <;> rfl
  · cases h
    cases lat <;> rfl

/-- C6 witness: a status with latitude absent yields no result and an
empty list of network calls. -/
theorem post_location_update_missing_coords_witness :
    post_location_update_to_ruckit (PyVal.str "tok") (PyVal.str "RD")
      (PyVal.str "drv") "gdev" ⟨some "gdev", none, some 5⟩ "2024-06-01T00:00:00"
      noPost = (none, []) :=
  post_location_update_missing_coords _ _ _ _ _ _ _ (Or.inl rfl)

/-- C7: from the stopped state, start reaches the running state exactly
when the initial authentication succeeds; on failure the state is
unchanged, so the running flag stays false and no loop thread starts. -/
theorem start_requires_auth (authSucceeds : Bool) (s : SchedulerState)
    (h : s.running = false) :
    ((start authSucceeds s).running = true ↔ authSucceeds = true) ∧
    (authSucceeds = false → start authSucceeds s = s) := by
  cases authSucceeds <;> simp [start, h]

/-- C7 witness: failed authentication from the stopped state leaves the
scheduler stopped with no thread started. -/
theorem start_requires_auth_witness :
    ((start false ⟨false, false⟩).running = true ↔ false = true) ∧
    (false = false → start false ⟨false, false⟩ = ⟨false, false⟩) :=
  start_requires_auth false ⟨false, false⟩ rfl

/-- A raw mapping record whose telemetry device identity field holds the
sentinel string TOKEN while the three tracking fields are ordinary
values. -/
def c1Record : AddInRecord :=
  ⟨PyVal.str "TOKEN", PyVal.str "RD-7", PyVal.str "tok-123", PyVal.str "drv-9"⟩

/-- C1 counterexample: a record whose telemetry device identity equals the
placeholder sentinel TOKEN is not dropped and not counted as skipped; the
identity mapper inserts it, keyed by the sentinel, with zero skips,
because the placeholder filter inspects only the three tracking fields. -/
theorem placeholder_gt_device_not_skipped :
    buildDeviceMapping [c1Record] =
      ⟨[(PyVal.str "TOKEN",
         ⟨PyVal.str "RD-7", PyVal.str "tok-123", PyVal.str "drv-9"⟩)], 0⟩ := by
  rfl

/-- C1 (amended): for every raw mapping record whose four fields are all
truthy, if any of the three tracking fields (credential, driver identity,
tracking device identity) equals a placeholder sentinel, the identity
mapper drops the record (the mapping is unchanged) and increments the
skipped counter by one, regardless of the other fields' validity. -/
theorem mapStep_tracking_placeholder_skips (st : MapState) (rec : AddInRecord)
    (hall : (rec.gt_device.truthy && rec.ri_device.truthy &&
             rec.ri_token.truthy && rec.ri_driver.truthy) = true)
    (hph : is_placeholder_value rec.ri_token = true ∨
           is_placeholder_value rec.ri_driver = true ∨
           is_placeholder_value rec.ri_device = true) :
    mapStep st rec = ⟨st.mapping, st.skipped + 1⟩ := by
  cases st
  rcases hph with h | h | h <;> simp [mapStep, hall, h]

/-- C1 witness: a record with tracking device identity DeviceID is
skipped and counted, leaving the mapping empty. -/
theorem mapStep_tracking_placeholder_skips_witness :
    mapStep ⟨[], 0⟩
      ⟨PyVal.str "g1", PyVal.str "DeviceID", PyVal.str "tok", PyVal.str "drv"⟩ =
      ⟨[], 1⟩ :=
  mapStep_tracking_placeholder_skips ⟨[], 0⟩
    ⟨PyVal.str "g1", PyVal.str "DeviceID", PyVal.str "tok", PyVal.str "drv"⟩
    (by decide) (Or.inr (Or.inr (by decide)))

theorem charListLt_iff (l₁ l₂ : List Char) :
    charListLt l₁ l₂ = true ↔ List.Lex (· < ·) l₁ l₂ := by
  induction l₁ generalizing l₂ with
  | nil =>
      cases l₂ with
      | nil => exact iff_of_false (by simp [charListLt]) (List.Lex.not_nil_right _ _)
      | cons b bs => exact iff_of_true rfl List.Lex.nil
  | cons a as ih =>
      cases l₂ with
      | nil => exact iff_of_false (by simp [charListLt]) (List.Lex.not_nil_right _ _)
      | cons b bs =>
          rcases lt_trichotomy a b with h | rfl | h
          · exact iff_of_true (by simp [charListLt, h]) (List.Lex.rel h)
          · rw [show charListLt (a :: as) (a :: bs) = charListLt as bs by
              simp [charListLt]]
            exact (ih bs).trans List.Lex.cons_iff.symm
          · refine iff_of_false (by simp [charListLt, h, asymm h]) ?_
            intro hlex
            cases hlex with
            | cons h' => exact absurd rfl (ne_of_gt h)
            | rel h' => exact absurd h' (asymm h)

/-- The executable comparison agrees with the lexicographic order on
strings. -/
theorem strLt_iff (a b : String) : strLt a b = true ↔ a < b := by
  rw [String.lt_iff_toList_lt]
  exact charListLt_iff a.data b.data

theorem pyMax1_cons (r x : RuckitResult) (xs : List RuckitResult) :
    pyMax1 r (x :: xs) = pyMax1 (if strLt (dateKey r) (dateKey x) then x else r) xs :=
  rfl

theorem pyMax1_mem (r : RuckitResult) (rs : List RuckitResult) :
    pyMax1 r rs ∈ r :: rs := by
  induction rs generalizing r with
  | nil => simp [pyMax1]
  | cons x xs ih =>
      rw [pyMax1_cons]
      rcases List.mem_cons.1 (ih (if strLt (dateKey r) (dateKey x) then x else r)) with h | h
      · rw [h]
        split
        · simp
        · simp
      · exact List.mem_cons_of_mem _ (List.mem_cons_of_mem _ h)

theorem pyMax1_le (r : RuckitResult) (rs : List RuckitResult) :
    dateKey r ≤ dateKey (pyMax1 r rs) ∧
      ∀ x ∈ rs, dateKey x ≤ dateKey (pyMax1 r rs) := by
  induction rs generalizing r with
  | nil => simp [pyMax1]
  | cons y ys ih =>
      rw [pyMax1_cons]
      by_cases h : strLt (dateKey r) (dateKey y) = true
      · rw [if_pos h]
        obtain ⟨h1, h2⟩ := ih y
        refine ⟨le_trans (le_of_lt ((strLt_iff _ _).1 h)) h1, ?_⟩
        intro x hx
        rcases List.mem_cons.1 hx with rfl | hx
        · exact h1
        · exact h2 x hx
      · rw [if_neg h]
        obtain ⟨h1, h2⟩ := ih r
        have hyr : dateKey y ≤ dateKey r :=
          not_lt.1 (fun hlt => h ((strLt_iff _ _).2 hlt))
        refine ⟨h1, ?_⟩
        intro x hx
        rcases List.mem_cons.1 hx with rfl | hx
        · exact le_trans hyr h1
        · exact h2 x hx

/-- C4: on a non-empty results list the cycle's latest-update selection
returns an element of the list whose date key (the recorded date string,
defaulting to the empty string) is lexicographically maximal under plain
string comparison. -/
theorem latest_update_lex_max (results : List RuckitResult) (h : results ≠ []) :
    ∃ latest, pyMaxByDate results = some latest ∧ latest ∈ results ∧
      ∀ r ∈ results, dateKey r ≤ dateKey latest := by
  match results with
  | [] => exact absurd rfl h
  | r :: rs =>
      refine ⟨pyMax1 r rs, rfl, pyMax1_mem r rs, ?_⟩
      intro x hx
      obtain ⟨h1, h2⟩ := pyMax1_le r rs
      rcases List.mem_cons.1 hx with rfl | hx
      · exact h1
      · exact h2 x hx

/-- Ruckit result dated 2024-01-01. -/
def c4r1 : RuckitResult := ⟨some "2024-01-01T00:00:00", some ⟨some [1, 2]⟩⟩

/-- Ruckit result dated 2024-01-02. -/
def c4r2 : RuckitResult := ⟨some "2024-01-02T00:00:00", some ⟨some [3, 4]⟩⟩

/-- C4 witness: on the two results dated 2024-01-01T00:00:00 and
2024-01-02T00:00:00 the selection picks a lexicographically maximal
element, namely the second. -/
theorem latest_update_lex_max_witness :
    ([c4r1, c4r2] ≠ ([] : List RuckitResult)) ∧
    (∃ latest, pyMaxByDate [c4r1, c4r2] = some latest ∧ latest ∈ [c4r1, c4r2] ∧
      ∀ r ∈ [c4r1, c4r2], dateKey r ≤ dateKey latest) ∧
    pyMaxByDate [c4r1, c4r2] = some c4r2 :=
  ⟨by simp, latest_update_lex_max [c4r1, c4r2] (by simp), by decide⟩

/-- C3: when a complete device status has a mapping entry, the Tracking
fetch answers 200 with results whose latest update has extractable
coordinates, and the tolerance comparison fails, a cycle over that one
status posts exactly one correction payload carrying the Geotab
coordinates [longitude, latitude] (not the Tracking ones), records a
discrepancy outcome, and the discrepancy counter is one. -/
theorem discrepancy_pushes_geotab_coords
    (d : String) (glat glon : ℚ) (addIns : List AddInRecord)
    (info : RuckitInfo) (resp : RuckitResponse) (results : List RuckitResult)
    (latest : RuckitResult) (rc : ℚ × ℚ)
    (httpGet : PyVal → PyVal → HttpOutcome)
    (httpPost : CorrectionPayload → PostOutcome) (now : String)
    (hd : d ≠ "")
    (hmap : lookupMapping (buildDeviceMapping addIns).mapping d = some info)
    (hget : httpGet info.ri_token info.ri_driver = HttpOutcome.response 200 resp)
    (hres : resp.results = some results)
    (hmax : pyMaxByDate results = some latest)
    (hext : extract_coordinates latest.locationObj = some rc)
    (hmis : coordinates_match (some (glon, glat)) (some rc) defaultTolerance = false) :
    (process_location_sync [⟨some d, some glat, some glon⟩] addIns
        httpGet httpPost now).discrepancies = 1 ∧
    (process_location_sync [⟨some d, some glat, some glon⟩] addIns
        httpGet httpPost now).posted =
      [{ truck := info.ri_device, driver := info.ri_driver, device_id := d,
         date := now, coordinates := [glon, glat] }] ∧
    (process_location_sync [⟨some d, some glat, some glon⟩] addIns
        httpGet httpPost now).outcomes = [DeviceOutcome.discrepancy] := by
  have hd' : (d == "") = false := by simp [hd]
  have hdev : processDevice (buildDeviceMapping addIns).mapping httpGet httpPost now
      ⟨some d, some glat, some glon⟩ =
      (DeviceOutcome.discrepancy,
        [{ truck := info.ri_device, driver := info.ri_driver, device_id := d,
           date := now, coordinates := [glon, glat] }]) := by
    simp only [processDevice, hd', Bool.false_eq_true, if_false, hmap, hget,
      get_ruckit_location_updates, beq_self_eq_true, if_true, hres, hmax, hext,
      hmis, post_location_update_to_ruckit]
  simp [process_location_sync, hdev]

/-- Concrete mapping record used by the C3 witness. -/
def c3AddIn : AddInRecord :=
  ⟨PyVal.str "gdev-1", PyVal.str "RD-1", PyVal.str "tok-1", PyVal.str "drv-1"⟩

/-- Tracking identity triple produced for the C3 witness record. -/
def c3Info : RuckitInfo := ⟨PyVal.str "RD-1", PyVal.str "tok-1", PyVal.str "drv-1"⟩

/-- Tracking result at (lon 10.0002, lat 20.0) for the C3 witness. -/
def c3Result : RuckitResult :=
  ⟨some "2024-05-01T00:00:00", some ⟨some [100002 / 10000, 20]⟩⟩

/-- Tracking response wrapping the single C3 witness result. -/
def c3Resp : RuckitResponse := ⟨some [c3Result]⟩

/-- GET oracle answering 200 with the C3 witness response. -/
def c3Get : PyVal → PyVal → HttpOutcome := fun _ _ => .response 200 c3Resp

/-- POST oracle answering 201 for the C3 witness. -/
def c3Post : CorrectionPayload → PostOutcome := fun _ => .response 201 "created"

/-- C3 witness: Geotab (lon 10, lat 20) against Tracking (lon 10.0002,
lat 20.0) at the default tolerance yields exactly one posted payload
with the Geotab coordinates and a discrepancy count of one. -/
theorem discrepancy_pushes_geotab_coords_witness :
    (process_location_sync [⟨some "gdev-1", some 20, some 10⟩] [c3AddIn]
        c3Get c3Post "2024-06-01T12:00:00").discrepancies = 1 ∧
    (process_location_sync [⟨some "gdev-1", some 20, some 10⟩] [c3AddIn]
        c3Get c3Post "2024-06-01T12:00:00").posted =
      [{ truck := c3Info.ri_device, driver := c3Info.ri_driver,
         device_id := "gdev-1", date := "2024-06-01T12:00:00",
         coordinates := [10, 20] }] ∧
    (process_location_sync [⟨some "gdev-1", some 20, some 10⟩] [c3AddIn]
        c3Get c3Post "2024-06-01T12:00:00").outcomes = [DeviceOutcome.discrepancy] := by
  have habs : (10000 : ℚ)⁻¹ < |10 - 100002 / 10000| := by
    have h0 : (10 : ℚ) - 100002 / 10000 ≤ 0 := by norm_num
    rw [abs_of_nonpos h0]
    norm_num
  exact discrepancy_pushes_geotab_coords "gdev-1" 20 10 [c3AddIn] c3Info c3Resp
    [c3Result] c3Result (100002 / 10000, 20) c3Get c3Post "2024-06-01T12:00:00"
    (by decide) rfl rfl rfl rfl rfl
    (by simp [coordinates_match, defaultTolerance, not_le, habs])

/-- C10: a device status whose latitude or longitude equals 0.0 is not
rejected by the completeness guard of the cycle (the coordinate check is
an is-not-None test, not a truthiness test), provided its device identity
is present and non-empty and the other coordinate is present. -/
theorem zero_coordinate_processed (mapping : List (PyVal × RuckitInfo))
    (httpGet : PyVal → PyVal → HttpOutcome)
    (httpPost : CorrectionPayload → PostOutcome) (now : String)
    (d : String) (lat lon : Option ℚ)
    (hd : d ≠ "") (hzero : lat = some 0 ∨ lon = some 0)
    (hlat : lat.isSome = true) (hlon : lon.isSome = true) :
    (processDevice mapping httpGet httpPost now ⟨some d, lat, lon⟩).1 ≠
      DeviceOutcome.incompleteData := by
  obtain ⟨a, rfl⟩ := Option.isSome_iff_exists.1 hlat
  obtain ⟨b, rfl⟩ := Option.isSome_iff_exists.1 hlon
  have hd' : (d == "") = false := by simp [hd]
  simp only [processDevice, hd', Bool.false_eq_true, if_false]
  cases hL : lookupMapping mapping d with
  | none => simp [hL]
  | some info =>
      cases hG : get_ruckit_location_updates (httpGet info.ri_token info.ri_driver) with
      | none => simp [hL, hG]
      | some resp =>
          cases hR : resp.results with
          | none => simp [hL, hG, hR]
          | some results =>
              cases hM : pyMaxByDate results with
              | none => simp [hL, hG, hR, hM]
              | some latest =>
                  cases hE : extract_coordinates latest.locationObj with
                  | none => simp [hL, hG, hR, hM, hE]
                  | some rcoords =>
                      cases hm : coordinates_match (some (b, a)) (some rcoords)
                          defaultTolerance <;>
                        simp [hL, hG, hR, hM, hE, hm]

/-- C10 witness: a status with latitude 0.0 and a present longitude is
not skipped as incomplete. -/
theorem zero_coordinate_processed_witness :
    (processDevice [] noGet noPost "2024-06-01T12:00:00"
        ⟨some "gdev-2", some 0, some 5⟩).1 ≠ DeviceOutcome.incompleteData :=
  zero_coordinate_processed [] noGet noPost "2024-06-01T12:00:00" "gdev-2"
    (some 0) (some 5) (by decide) (Or.inl rfl) rfl rfl

end Ruckit
